import Mathlib

/-!
Verification development for the patient-view client's core logic: the
address/amount codec, the payment-request ledger, the pharmacy store, the
attestation poller, the cross-chain USDC transfer orchestrator, and the
prescription-NFT readers.

Conventions of the embedding:
- JS strings are modelled as `String` (or `List Char` where character-level
  structure matters); JS `bigint` as `Int`; JS `number` as an idealized
  value (`JSNum` below) whose finite arithmetic is exact.
- Fallible calls (chain RPC, HTTP, JSON parsing) are modelled as oracle
  functions supplied in an environment record, returning `Except String`.
- The attestation poller's unbounded loop is modelled with explicit fuel;
  running out of fuel corresponds to the real loop not having terminated
  yet (it is not an error path: the real loop never throws).
- Each externally visible chain interaction of the orchestrator is recorded
  in an event trace, in the order the calls are attempted.
-/

/- ============ Address/Amount Codec ============ -/

/-- Hex digit, the character class of a standard chain address. -/
def isHexDig (c : Char) : Bool :=
  c.isDigit || (('a' ≤ c) && (c ≤ 'f')) || (('A' ≤ c) && (c ≤ 'F'))

/-- `address.startsWith("0x") ? address.slice(2) : address`, on the
character-list view of a JS string. -/
def strip0x (address : List Char) : List Char :=
  match address with
  | '0' :: 'x' :: rest => rest
  | _ => address

/-- `formatAddressToBytes32`: removes an optional `0x` prefix and prepends
the literal template `0x` + 24 zero digits. The source performs no
validation of length or character class. -/
def formatAddressToBytes32 (address : List Char) : List Char :=
  ('0' :: 'x' :: List.replicate 24 '0') ++ strip0x address

/-- Idealized JS `number`: NaN, the two infinities, or an exact finite
value. Finite arithmetic is modelled exactly (no rounding); the concrete
inputs used in the theorems below are exactly representable doubles on
which the model and IEEE arithmetic agree. -/
inductive JSNum where
  | nan
  | posInf
  | negInf
  | finite (q : ℚ)
deriving DecidableEq

/-- `usdcToBigInt`: `BigInt(Math.floor(usdcAmount * 1_000_000))`.
`Math.floor` maps NaN and the infinities to themselves, and `BigInt` then
throws a RangeError; on a finite value it floors toward negative infinity
and the `BigInt` conversion succeeds. -/
def usdcToBigInt (usdcAmount : JSNum) : Except String Int :=
  match usdcAmount with
  | .nan => .error "Cannot convert NaN to a BigInt"
  | .posInf => .error "Cannot convert Infinity to a BigInt"
  | .negInf => .error "Cannot convert -Infinity to a BigInt"
  | .finite q => .ok ⌊q * 1000000⌋

/-- `bigIntToUSDC`: `Number(amount) / 1_000_000`, display-only inverse. -/
def bigIntToUSDC (amount : Int) : ℚ :=
  (amount : ℚ) / 1000000

/- ============ Payment Request Ledger ============ -/

/-- Status enum of a payment request. -/
inductive PRStatus where
  | pending
  | completed
  | failed
deriving DecidableEq

/-- `PaymentRequest` record. `amount` is the human-decimal quantity (an
idealized exact number), `amountInSubunits` the stringified subunit count. -/
structure PaymentRequest where
  tokenId : Nat
  patientAddress : String
  pharmacistAddress : String
  amount : ℚ
  amountInSubunits : String
  status : PRStatus
  createdAt : String
  id : Option String := none
deriving DecidableEq

/-- `updatePaymentRequestStatus`: `find` locates the first request whose
`id` matches and mutates its `status` in place; when no request matches,
the body is skipped and the ledger is untouched. The best-effort
localStorage mirror duplicates the in-memory update and is not modelled
separately. -/
def updatePaymentRequestStatus (requestId : String) (status : PRStatus) :
    List PaymentRequest → List PaymentRequest
  | [] => []
  | r :: rs =>
    if r.id = some requestId then { r with status := status } :: rs
    else r :: updatePaymentRequestStatus requestId status rs

/- ============ Pharmacy Store ============ -/

/-- `Pharmacy` record persisted under the `@pharmacies` key. -/
structure Pharmacy where
  id : String
  name : String
  ethereumAddress : String
  createdAt : Nat
deriving DecidableEq

/-- The two AsyncStorage keys backing the pharmacy feature: the pharmacy
list and the selected-pharmacy pointer. -/
structure PharmacyStore where
  pharmacies : List Pharmacy
  selectedId : Option String
deriving DecidableEq

/-- `deletePharmacy`: filters the pharmacy list by id, then clears the
selected pointer when it referenced the deleted id. -/
def deletePharmacy (id : String) (st : PharmacyStore) : PharmacyStore :=
  { pharmacies := st.pharmacies.filter (fun p => p.id != id)
    selectedId := if st.selectedId = some id then none else st.selectedId }

/-- `getSelectedPharmacyId`: reads the pointer key. -/
def getSelectedPharmacyId (st : PharmacyStore) : Option String :=
  st.selectedId

/-- `getSelectedPharmacy`: a falsy (absent or empty) pointer yields none;
otherwise the first pharmacy with the pointed-to id, or none. -/
def getSelectedPharmacy (st : PharmacyStore) : Option Pharmacy :=
  match getSelectedPharmacyId st with
  | none => none
  | some sid =>
    if sid = "" then none
    else st.pharmacies.find? (fun p => p.id == sid)

/-- `isValidEthereumAddress`: `0x` followed by exactly 40 hex digits. -/
def isValidEthereumAddress (address : List Char) : Bool :=
  match address with
  | '0' :: 'x' :: rest => rest.length == 40 && rest.all isHexDig
  | _ => false

/-- The selected-pharmacy pointer references an existing pharmacy or is
absent. -/
def SelectedPointerOk (st : PharmacyStore) : Prop :=
  ∀ sid, st.selectedId = some sid → ∃ p ∈ st.pharmacies, p.id = sid

/- ============ Attestation Poller ============ -/

/-- `messages[0]` of a CCTP attestation-service reply. -/
structure Attestation where
  status : String
  message : String
  attestation : String
deriving DecidableEq

/-- One iteration's outcome of the GET against the attestation service:
a 2xx reply whose status field is 404, a 2xx reply carrying an optional
first message, an HTTP 429, an HTTP 404 raised as an error, or any other
error. -/
inductive PollResponse where
  | ok404
  | okData (first : Option Attestation)
  | err429
  | err404
  | errOther (msg : String)
deriving DecidableEq

/-- `retrieveAttestation`'s loop, one fuel unit per iteration. Every
branch other than a reply whose first message has status `"complete"`
sleeps and retries; no branch throws. `none` means the fuel ran out, i.e.
the real unbounded loop would still be polling. -/
def retrieveAttestationAux (resp : Nat → PollResponse) : Nat → Nat → Option Attestation
  | _, 0 => none
  | i, Nat.succ fuel =>
    match resp i with
    | .okData (some m) =>
      if m.status = "complete" then some m
      else retrieveAttestationAux resp (i + 1) fuel
    | _ => retrieveAttestationAux resp (i + 1) fuel

/-- `retrieveAttestation(transactionHash)`: poll from iteration 0. -/
def retrieveAttestation (resp : Nat → PollResponse) (fuel : Nat) : Option Attestation :=
  retrieveAttestationAux resp 0 fuel

/- ============ Cross-Chain Transfer Orchestrator ============ -/

/-- `USDCTransferParams` (the chain selectors, never read by the source,
are omitted). `amount` is a `bigint` of 10^6 subunits. -/
structure USDCTransferParams where
  privateKey : String
  destinationAddress : String
  amount : Int
  maxFee : Option Int := none
  minFinalityThreshold : Option Nat := none
deriving DecidableEq

/-- `TransferResult`. -/
structure TransferResult where
  approvalTx : Option String := none
  burnTx : String
  attestation : Option Attestation := none
  mintTx : Option String := none
  success : Bool
  error : Option String := none
deriving DecidableEq

/-- Arguments encoded into the `depositForBurn` call by `burnUSDC`. -/
structure BurnArgs where
  amount : Int
  destinationDomain : Nat
  mintRecipient : List Char
  burnToken : String
  destinationCaller : List Char
  maxFee : Int
  minFinalityThreshold : Nat
deriving DecidableEq

/-- JS `x || d` on an optional bigint: absent or zero falls to the default. -/
def jsOrInt (x : Option Int) (d : Int) : Int :=
  match x with
  | none => d
  | some v => if v = 0 then d else v

/-- JS `x || d` on an optional number. -/
def jsOrNat (x : Option Nat) (d : Nat) : Nat :=
  match x with
  | none => d
  | some v => if v = 0 then d else v

/-- Source-chain USDC token contract address. -/
def ETHEREUM_SEPOLIA_USDC : String :=
  "0x1c7d4b196cb0c7b01d743fbc6116a902379c7238"

/-- Source domain id of Ethereum Sepolia. -/
def ETHEREUM_SEPOLIA_DOMAIN : Nat := 0

/-- Destination domain id of Avalanche Fuji. -/
def AVALANCHE_FUJI_DOMAIN : Nat := 1

/-- The zero-filled `destinationCaller` bytes32 constant of `burnUSDC`. -/
def zeroBytes32 : List Char :=
  '0' :: 'x' :: List.replicate 64 '0'

/-- The fixed allowance ceiling approved in step 1 (10,000 USDC). -/
def approvalAmount : Int := 10000000000

/-- The `depositForBurn` arguments `burnUSDC` derives from the params. -/
def mkBurnArgs (params : USDCTransferParams) : BurnArgs :=
  { amount := params.amount
    destinationDomain := AVALANCHE_FUJI_DOMAIN
    mintRecipient := formatAddressToBytes32 params.destinationAddress.data
    burnToken := ETHEREUM_SEPOLIA_USDC
    destinationCaller := zeroBytes32
    maxFee := jsOrInt params.maxFee 500
    minFinalityThreshold := jsOrNat params.minFinalityThreshold 1000 }

/-- `privateKey.startsWith("0x") ? privateKey : 0x + privateKey`. -/
def normalizeKey (s : String) : String :=
  match s.data with
  | '0' :: 'x' :: _ => s
  | _ => "0x" ++ s

/-- `error.message || "Unknown error occurred"`. -/
def errMsg (e : String) : String :=
  if e = "" then "Unknown error occurred" else e

/-- Observable steps of one transfer, in attempt order: the five chain
calls, the attestation poll, and the three inclusion waits. -/
inductive Step where
  | approve
  | awaitApproval
  | burn
  | awaitBurn
  | pollAttestation
  | mint
  | awaitMint
deriving DecidableEq

/-- Environment of one `executeUSDCTransfer` run: oracles for account
derivation, the four wallet/public-client calls, the inclusion waits, and
the attestation service's reply stream per queried transaction hash. -/
structure ChainEnv where
  deriveAccount : String → Except String Unit
  approve : Int → Except String String
  waitApproval : String → Except String Unit
  burn : BurnArgs → Except String String
  waitBurn : String → Except String Unit
  pollResponses : String → Nat → PollResponse
  pollFuel : Nat
  mint : Attestation → Except String String
  waitMint : String → Except String Unit

/-- Body of the `try` block of `executeUSDCTransfer`: validation, account
derivation, then the seven-step pipeline. Returns the terminating
outcome (`Except.ok` the success record, `Except.error` a thrown message)
or `none` when the attestation poll has not terminated, together with the
trace of steps attempted so far. -/
def executeBody (env : ChainEnv) (params : USDCTransferParams) :
    Option (Except String TransferResult) × List Step :=
  if params.privateKey = "" then
    (some (.error "Private key is required"), [])
  else if params.destinationAddress = "" then
    (some (.error "Destination address is required"), [])
  else if params.amount ≤ 0 then
    (some (.error "Amount must be greater than 0"), [])
  else
    match env.deriveAccount (normalizeKey params.privateKey) with
    | .error e => (some (.error e), [])
    | .ok _ =>
      match env.approve approvalAmount with
      | .error e => (some (.error e), [.approve])
      | .ok approvalTx =>
        match env.waitApproval approvalTx with
        | .error e => (some (.error e), [.approve, .awaitApproval])
        | .ok _ =>
          match env.burn (mkBurnArgs params) with
          | .error e => (some (.error e), [.approve, .awaitApproval, .burn])
          | .ok burnTx =>
            match env.waitBurn burnTx with
            | .error e =>
              (some (.error e), [.approve, .awaitApproval, .burn, .awaitBurn])
            | .ok _ =>
              match retrieveAttestation (env.pollResponses burnTx) env.pollFuel with
              | none =>
                (none,
                 [.approve, .awaitApproval, .burn, .awaitBurn, .pollAttestation])
              | some att =>
                match env.mint att with
                | .error e =>
                  (some (.error e),
                   [.approve, .awaitApproval, .burn, .awaitBurn,
                    .pollAttestation, .mint])
                | .ok mintTx =>
                  match env.waitMint mintTx with
                  | .error e =>
                    (some (.error e),
                     [.approve, .awaitApproval, .burn, .awaitBurn,
                      .pollAttestation, .mint, .awaitMint])
                  | .ok _ =>
                    (some (.ok
                      { approvalTx := some approvalTx
                        burnTx := burnTx
                        attestation := some att
                        mintTx := some mintTx
                        success := true
                        error := none }),
                     [.approve, .awaitApproval, .burn, .awaitBurn,
                      .pollAttestation, .mint, .awaitMint])

/-- `executeUSDCTransfer`: the `try` body with its `catch`, which converts
any thrown message into `TransferResult` with `success:false`, an always
empty `burnTx`, and `error.message || "Unknown error occurred"`. `none`
still marks a poll that has not terminated. -/
def executeUSDCTransfer (env : ChainEnv) (params : USDCTransferParams) :
    Option TransferResult × List Step :=
  match executeBody env params with
  | (some (.ok r), tr) => (some r, tr)
  | (some (.error e), tr) =>
    (some { burnTx := "", success := false, error := some (errMsg e) }, tr)
  | (none, tr) => (none, tr)

/- ============ Prescription NFT Readers ============ -/

/-- Decoded prescription token. `metadata` holds the JSON parsed from a
`data:application/json,` token URI, when present. -/
structure PrescriptionNFT where
  tokenId : Nat
  owner : String
  medication : String
  dosage : String
  instructions : String
  metadata : Option String := none
deriving DecidableEq

/-- Read oracles of the prescription contract plus `JSON.parse`. -/
structure NFTChain where
  ownerOf : Nat → Except String String
  prescriptions : Nat → Except String (String × String × String)
  tokenURI : Nat → Except String String
  parseJson : String → Except String String

/-- The `data:application/json,` URI header (22 characters). -/
def dataJsonHeader : List Char :=
  String.data "data:application/json,"

/-- `readPrescriptionNFT`: inside one try/catch, reads owner, struct and
URI; decodes inline JSON metadata when the URI carries the data header.
Any throw (including from `JSON.parse`) yields null. The record's
`tokenId` is the queried id. -/
def readPrescriptionNFT (env : NFTChain) (tokenId : Nat) : Option PrescriptionNFT :=
  match env.ownerOf tokenId with
  | .error _ => none
  | .ok owner =>
    match env.prescriptions tokenId with
    | .error _ => none
    | .ok (med, dos, ins) =>
      match env.tokenURI tokenId with
      | .error _ => none
      | .ok uri =>
        if dataJsonHeader.isPrefixOf uri.data then
          match env.parseJson (String.mk (uri.data.drop 22)) with
          | .error _ => none
          | .ok j =>
            some { tokenId := tokenId, owner := owner, medication := med,
                   dosage := dos, instructions := ins, metadata := some j }
        else
          some { tokenId := tokenId, owner := owner, medication := med,
                 dosage := dos, instructions := ins, metadata := none }

/-- `readAllPrescriptionNFTs`: loops token ids 1 through 10 and keeps the
non-null reads, in id order. -/
def readAllPrescriptionNFTs (env : NFTChain) : List PrescriptionNFT :=
  (List.range' 1 10).filterMap (readPrescriptionNFT env)

/-- `readPrescriptionNFTsForOwner`: case-insensitive owner filter over the
full 1..10 scan. -/
def readPrescriptionNFTsForOwner (env : NFTChain) (ownerAddress : String) :
    List PrescriptionNFT :=
  (readAllPrescriptionNFTs env).filter
    (fun nft => nft.owner.toLower == ownerAddress.toLower)

/- ============ Concrete test fixtures ============ -/

/-- A well-formed transfer request. -/
def paramsDemo : USDCTransferParams :=
  { privateKey := "0xkey", destinationAddress := "0xabc", amount := 1000000 }

/-- A transfer request with an absent destination address. -/
def paramsNoDest : USDCTransferParams :=
  { privateKey := "0xkey", destinationAddress := "", amount := 5 }

/-- A completed attestation payload. -/
def attDemo : Attestation :=
  { status := "complete", message := "0xMSG", attestation := "0xSIG" }

/-- An environment on which every chain call and the poll succeed. -/
def envAll : ChainEnv :=
  { deriveAccount := fun _ => .ok ()
    approve := fun _ => .ok "0xA"
    waitApproval := fun _ => .ok ()
    burn := fun _ => .ok "0xB"
    waitBurn := fun _ => .ok ()
    pollResponses := fun _ _ => .okData (some attDemo)
    pollFuel := 1
    mint := fun _ => .ok "0xC"
    waitMint := fun _ => .ok () }

/-- Like `envAll`, but the mint transaction reverts. -/
def envMintFails : ChainEnv :=
  { envAll with mint := fun _ => .error "mint reverted" }

/-- Like `envAll`, but the approval submission throws. -/
def envApproveFails : ChainEnv :=
  { envAll with approve := fun _ => .error "rpc unreachable" }

/-- A stored payment request with id `"a"`. -/
def reqA : PaymentRequest :=
  { tokenId := 1, patientAddress := "0xP", pharmacistAddress := "0xF",
    amount := 5, amountInSubunits := "5000000", status := .pending,
    createdAt := "t0", id := some "a" }

/-- A stored pharmacy with id `"p1"`. -/
def pharmA : Pharmacy :=
  { id := "p1", name := "A", ethereumAddress := "0xabc", createdAt := 0 }

/-- A store whose selected pointer references `pharmA`. -/
def storeA : PharmacyStore :=
  { pharmacies := [pharmA], selectedId := some "p1" }

/-- An NFT chain on which every token read succeeds. -/
def envNFT : NFTChain :=
  { ownerOf := fun _ => .ok "0xOwner"
    prescriptions := fun _ => .ok ("m", "d", "i")
    tokenURI := fun _ => .ok "u"
    parseJson := fun s => .ok s }

/-- The decoded token 1 of `envNFT`. -/
def nft1 : PrescriptionNFT :=
  { tokenId := 1, owner := "0xOwner", medication := "m", dosage := "d",
    instructions := "i", metadata := none }

/- ============ Theorems ============ -/

/-- C6 counterexample: `usdcToBigInt` does not fail on the negative input
-1; it returns -1000000, contradicting the claim that every negative
decimal input fails with InvalidAmount. -/
theorem c6_counterexample :
    usdcToBigInt (JSNum.finite (-1)) = Except.ok (-1000000) := by
  norm_num [usdcToBigInt]

/-- C6 (amended): `usdcToBigInt` fails only on non-finite input; every
finite input (negative ones included) is multiplied by 10^6 and floored,
which for non-negative input is truncation toward zero onto a non-negative
integer; `usdcToBigInt 1.0 = 1_000_000`. -/
theorem c6_amended :
    (∀ q : ℚ, usdcToBigInt (JSNum.finite q) = Except.ok ⌊q * 1000000⌋) ∧
    (∃ e₁ e₂ e₃, usdcToBigInt JSNum.nan = Except.error e₁ ∧
      usdcToBigInt JSNum.posInf = Except.error e₂ ∧
      usdcToBigInt JSNum.negInf = Except.error e₃) ∧
    (∀ q : ℚ, 0 ≤ q → ∀ z : Int, usdcToBigInt (JSNum.finite q) = Except.ok z →
      0 ≤ z ∧ (z : ℚ) ≤ q * 1000000 ∧ q * 1000000 < (z : ℚ) + 1) ∧
    usdcToBigInt (JSNum.finite 1) = Except.ok 1000000 := by
  refine ⟨fun q => rfl, ⟨_, _, _, rfl, rfl, rfl⟩, ?_, by norm_num [usdcToBigInt]⟩
  intro q hq z hz
  have hz' : ⌊q * 1000000⌋ = z := by
    simpa [usdcToBigInt] using hz
  subst hz'
  refine ⟨Int.floor_nonneg.mpr (by positivity), Int.floor_le _, ?_⟩
  exact Int.lt_floor_add_one _

/-- C6 witness: the amended truncation bounds instantiated at input 1. -/
theorem c6_witness :
    0 ≤ (1000000 : Int) ∧ ((1000000 : Int) : ℚ) ≤ 1 * 1000000 ∧
      (1 : ℚ) * 1000000 < ((1000000 : Int) : ℚ) + 1 :=
  c6_amended.2.2.1 1 (by norm_num) 1000000 (by norm_num [usdcToBigInt])

/-- C7 counterexample: on a 39-hex-digit input `formatAddressToBytes32`
does not fail; it returns a (65-character) padded string, contradicting
the claim that malformed input fails with InvalidAddress. -/
theorem c7_counterexample :
    formatAddressToBytes32 (List.replicate 39 'a') =
      ('0' :: 'x' :: List.replicate 24 '0') ++ List.replicate 39 'a' ∧
    (formatAddressToBytes32 (List.replicate 39 'a')).length = 65 := by
  constructor
  · decide
  · decide

/-- C7 (amended): on any 40-hex-digit address, with or without a `0x`
prefix, the result is the `0x` prefix, 24 zero digits, then the original
40 digits, 66 characters in all; on malformed input no failure occurs (the
function pads whatever content remains after the optional prefix). -/
theorem c7_amended (core : List Char) (hlen : core.length = 40)
    (hhex : core.all isHexDig = true) :
    formatAddressToBytes32 core =
      ('0' :: 'x' :: List.replicate 24 '0') ++ core ∧
    (formatAddressToBytes32 core).length = 66 ∧
    formatAddressToBytes32 ('0' :: 'x' :: core) =
      ('0' :: 'x' :: List.replicate 24 '0') ++ core ∧
    (formatAddressToBytes32 ('0' :: 'x' :: core)).length = 66 := by
  have hstrip : strip0x core = core := by
    unfold strip0x
    split
    · rename_i rest
      have hx : isHexDig 'x' = false := by decide
      simp [List.all_cons, hx] at hhex
    · rfl
  have h1 : formatAddressToBytes32 core =
      ('0' :: 'x' :: List.replicate 24 '0') ++ core := by
    unfold formatAddressToBytes32
    rw [hstrip]
  have h2 : formatAddressToBytes32 ('0' :: 'x' :: core) =
      ('0' :: 'x' :: List.replicate 24 '0') ++ core := rfl
  refine ⟨h1, ?_, h2, ?_⟩
  · rw [h1]
    simp [hlen]
  · rw [h2]
    simp [hlen]

/-- C7 witness: the amended padding property at a concrete 40-digit
address. -/
theorem c7_witness :
    formatAddressToBytes32 (List.replicate 40 'a') =
      ('0' :: 'x' :: List.replicate 24 '0') ++ List.replicate 40 'a' ∧
    (formatAddressToBytes32 (List.replicate 40 'a')).length = 66 ∧
    formatAddressToBytes32 ('0' :: 'x' :: List.replicate 40 'a') =
      ('0' :: 'x' :: List.replicate 24 '0') ++ List.replicate 40 'a' ∧
    (formatAddressToBytes32 ('0' :: 'x' :: List.replicate 40 'a')).length = 66 :=
  c7_amended (List.replicate 40 'a') (by decide) (by decide)

/-- C8: `updatePaymentRequestStatus` on an id matching no stored request
returns the ledger unchanged (and, being a total function, raises
nothing). -/
theorem c8_unknown_id_noop (requestId : String) (status : PRStatus)
    (ledger : List PaymentRequest)
    (h : ∀ r ∈ ledger, r.id ≠ some requestId) :
    updatePaymentRequestStatus requestId status ledger = ledger := by
  induction ledger with
  | nil => rfl
  | cons r rs ih =>
    have hr : r.id ≠ some requestId := h r (List.mem_cons_self r rs)
    unfold updatePaymentRequestStatus
    rw [if_neg hr, ih fun x hx => h x (List.mem_cons_of_mem r hx)]

/-- C8 witness: updating the unknown id `"b"` leaves the one-entry ledger
untouched. -/
theorem c8_witness :
    updatePaymentRequestStatus "b" PRStatus.completed [reqA] = [reqA] :=
  c8_unknown_id_noop "b" PRStatus.completed [reqA] (by decide)

/-- C9: deleting a pharmacy preserves the invariant that the selected
pointer references an existing pharmacy or is absent, and when the deleted
pharmacy was the selected one the pointer is cleared, so
`getSelectedPharmacy` afterwards returns none. -/
theorem c9_delete_selected (st : PharmacyStore) (id : String)
    (hinv : SelectedPointerOk st) :
    SelectedPointerOk (deletePharmacy id st) ∧
    (st.selectedId = some id →
      getSelectedPharmacy (deletePharmacy id st) = none) := by
  constructor
  · intro sid hsid
    by_cases hsel : st.selectedId = some id
    · rw [show (deletePharmacy id st).selectedId =
          (if st.selectedId = some id then none else st.selectedId) from rfl,
        if_pos hsel] at hsid
      exact absurd hsid (by simp)
    · rw [show (deletePharmacy id st).selectedId =
          (if st.selectedId = some id then none else st.selectedId) from rfl,
        if_neg hsel] at hsid
      obtain ⟨p, hp, hpid⟩ := hinv sid hsid
      have hne : sid ≠ id := by
        intro hcontra
        rw [hcontra] at hsid
        exact hsel hsid
      refine ⟨p, ?_, hpid⟩
      show p ∈ (deletePharmacy id st).pharmacies
      unfold deletePharmacy
      simp only [List.mem_filter]
      exact ⟨hp, by simp [hpid, hne]⟩
  · intro hsel
    unfold getSelectedPharmacy getSelectedPharmacyId deletePharmacy
    simp [hsel]

/-- C9 witness: deleting the selected pharmacy of `storeA`. -/
theorem c9_witness :
    SelectedPointerOk (deletePharmacy "p1" storeA) ∧
    (storeA.selectedId = some "p1" →
      getSelectedPharmacy (deletePharmacy "p1" storeA) = none) :=
  c9_delete_selected storeA "p1" (fun sid h => by
    have h' : some "p1" = some sid := h
    cases h'
    exact ⟨pharmA, by simp [storeA], rfl⟩)

/-- A successful single-token read reports the queried token id. -/
theorem readPrescriptionNFT_tokenId (env : NFTChain) (t : Nat)
    (n : PrescriptionNFT) (h : readPrescriptionNFT env t = some n) :
    n.tokenId = t := by
  unfold readPrescriptionNFT at h
  repeat' split at h
  all_goals first
    | (cases h; rfl)
    | simp at h

/-- C10: every prescription returned by the full scan, and hence by the
owner-filtered scan, has a token id between 1 and 10. -/
theorem c10_tokenId_bounds :
    (∀ (env : NFTChain) (n : PrescriptionNFT),
      n ∈ readAllPrescriptionNFTs env → 1 ≤ n.tokenId ∧ n.tokenId ≤ 10) ∧
    (∀ (env : NFTChain) (owner : String) (n : PrescriptionNFT),
      n ∈ readPrescriptionNFTsForOwner env owner →
        1 ≤ n.tokenId ∧ n.tokenId ≤ 10) := by
  have hb : ∀ (env : NFTChain) (n : PrescriptionNFT),
      n ∈ readAllPrescriptionNFTs env → 1 ≤ n.tokenId ∧ n.tokenId ≤ 10 := by
    intro env n hn
    unfold readAllPrescriptionNFTs at hn
    obtain ⟨t, ht, hread⟩ := List.mem_filterMap.mp hn
    rw [readPrescriptionNFT_tokenId env t n hread]
    have hrange := List.mem_range'_1.mp ht
    omega
  refine ⟨hb, fun env owner n hn => hb env n ?_⟩
  exact List.mem_of_mem_filter hn

/-- C10 witness: token 1 of the all-success chain is in the scan and in
bounds. -/
theorem c10_witness : 1 ≤ nft1.tokenId ∧ nft1.tokenId ≤ 10 :=
  c10_tokenId_bounds.1 envNFT nft1 (by decide)

/-- The poller loop only ever returns a message whose status is
`"complete"`. -/
theorem retrieveAttestationAux_complete (resp : Nat → PollResponse) :
    ∀ fuel i a, retrieveAttestationAux resp i fuel = some a →
      a.status = "complete" := by
  intro fuel
  induction fuel with
  | zero =>
    intro i a h
    simp [retrieveAttestationAux] at h
  | succ f ih =>
    intro i a h
    unfold retrieveAttestationAux at h
    split at h
    · split at h
      · rename_i m hstatus
        cases h
        exact hstatus
      · exact ih (i + 1) a h
    · exact ih (i + 1) a h

/-- The poller only ever returns a complete attestation, stated on the
wrapper. -/
theorem retrieveAttestation_complete (resp : Nat → PollResponse) (fuel : Nat)
    (a : Attestation) (h : retrieveAttestation resp fuel = some a) :
    a.status = "complete" :=
  retrieveAttestationAux_complete resp fuel 0 a h

/-- When the `try` body of the orchestrator mentions the mint step in its
trace, the burn call succeeded, the poll for that exact burn transaction
returned a complete attestation, and the trace begins with the five
earlier steps followed by the mint attempt. -/
theorem executeBody_mint_attested (env : ChainEnv) (params : USDCTransferParams)
    (out : Option (Except String TransferResult)) (tr : List Step)
    (h : executeBody env params = (out, tr)) (hm : Step.mint ∈ tr) :
    ∃ burnTx att,
      env.burn (mkBurnArgs params) = .ok burnTx ∧
      retrieveAttestation (env.pollResponses burnTx) env.pollFuel = some att ∧
      att.status = "complete" ∧
      ∃ rest, tr = [.approve, .awaitApproval, .burn, .awaitBurn,
                    .pollAttestation, .mint] ++ rest := by
  unfold executeBody at h
  repeat' split at h
  all_goals cases h
  all_goals simp at hm
  all_goals
    first
    | exact ⟨_, _, by assumption, by assumption,
        retrieveAttestation_complete _ _ _ (by assumption), ⟨[], rfl⟩⟩
    | exact ⟨_, _, by assumption, by assumption,
        retrieveAttestation_complete _ _ _ (by assumption), ⟨[.awaitMint], rfl⟩⟩

/-- C1: in every run of `executeUSDCTransfer`, the mint call is attempted
only after the attestation poll for the exact burn transaction id returned
by this run's burn step produced a complete attestation, and the poller
itself only ever returns attestations with status `"complete"`. -/
theorem c1_mint_only_after_complete_attestation :
    (∀ (env : ChainEnv) (params : USDCTransferParams)
       (out : Option TransferResult) (tr : List Step),
      executeUSDCTransfer env params = (out, tr) →
      Step.mint ∈ tr →
      ∃ burnTx att,
        env.burn (mkBurnArgs params) = .ok burnTx ∧
        retrieveAttestation (env.pollResponses burnTx) env.pollFuel = some att ∧
        att.status = "complete" ∧
        ∃ rest, tr = [.approve, .awaitApproval, .burn, .awaitBurn,
                      .pollAttestation, .mint] ++ rest) ∧
    (∀ (resp : Nat → PollResponse) (fuel i : Nat) (a : Attestation),
      retrieveAttestationAux resp i fuel = some a → a.status = "complete") := by
  constructor
  · intro env params out tr h hm
    unfold executeUSDCTransfer at h
    split at h
    all_goals rename_i heq
    all_goals cases h
    all_goals exact executeBody_mint_attested env params _ _ heq hm
  · exact retrieveAttestationAux_complete

/-- C1 witness: the ordering property instantiated on the all-success run. -/
theorem c1_witness :
    ∃ burnTx att,
      envAll.burn (mkBurnArgs paramsDemo) = .ok burnTx ∧
      retrieveAttestation (envAll.pollResponses burnTx) envAll.pollFuel = some att ∧
      att.status = "complete" ∧
      ∃ rest,
        ([.approve, .awaitApproval, .burn, .awaitBurn,
          .pollAttestation, .mint, .awaitMint] : List Step) =
        [.approve, .awaitApproval, .burn, .awaitBurn,
         .pollAttestation, .mint] ++ rest :=
  c1_mint_only_after_complete_attestation.1 envAll paramsDemo
    (some { approvalTx := some "0xA", burnTx := "0xB",
            attestation := some attDemo, mintTx := some "0xC",
            success := true, error := none })
    [.approve, .awaitApproval, .burn, .awaitBurn,
     .pollAttestation, .mint, .awaitMint]
    (by decide) (by decide)

/-- C2: when validation passes and every chain call, inclusion wait and
the attestation poll succeed, `executeUSDCTransfer` returns success with
all four identifiers populated, and the steps occur in exactly the order
approve, await-approval, burn, await-burn, poll-attestation, mint,
await-mint. -/
theorem c2_all_success (env : ChainEnv) (params : USDCTransferParams)
    (hpk : params.privateKey ≠ "")
    (hdest : params.destinationAddress ≠ "")
    (hamt : 0 < params.amount)
    (hacct : env.deriveAccount (normalizeKey params.privateKey) = .ok ())
    (aTx : String) (ha : env.approve approvalAmount = .ok aTx)
    (hwa : env.waitApproval aTx = .ok ())
    (bTx : String) (hb : env.burn (mkBurnArgs params) = .ok bTx)
    (hwb : env.waitBurn bTx = .ok ())
    (att : Attestation)
    (hatt : retrieveAttestation (env.pollResponses bTx) env.pollFuel = some att)
    (mTx : String) (hm : env.mint att = .ok mTx)
    (hwm : env.waitMint mTx = .ok ()) :
    executeUSDCTransfer env params =
      (some { approvalTx := some aTx, burnTx := bTx, attestation := some att,
              mintTx := some mTx, success := true, error := none },
       [.approve, .awaitApproval, .burn, .awaitBurn,
        .pollAttestation, .mint, .awaitMint]) := by
  simp only [executeUSDCTransfer, executeBody, if_neg hpk, if_neg hdest,
    if_neg (not_le.mpr hamt), hacct, ha, hwa, hb, hwb, hatt, hm, hwm]

/-- C2 witness: the all-success run on the concrete environment. -/
theorem c2_witness :
    executeUSDCTransfer envAll paramsDemo =
      (some { approvalTx := some "0xA", burnTx := "0xB",
              attestation := some attDemo, mintTx := some "0xC",
              success := true, error := none },
       [.approve, .awaitApproval, .burn, .awaitBurn,
        .pollAttestation, .mint, .awaitMint]) :=
  c2_all_success envAll paramsDemo (by decide) (by decide) (by decide)
    rfl "0xA" rfl rfl "0xB" rfl rfl attDemo rfl "0xC" rfl rfl

/-- A terminating `try` body that returns normally returns the success
record: its `success` flag is true. -/
theorem executeBody_ok_success (env : ChainEnv) (params : USDCTransferParams)
    (r : TransferResult) (tr : List Step)
    (h : executeBody env params = (some (.ok r), tr)) : r.success = true := by
  unfold executeBody at h
  repeat' split at h
  all_goals simp only [Prod.mk.injEq, Option.some.injEq] at h
  all_goals first
    | (obtain ⟨h1, -⟩ := h
       cases h1
       rfl)
    | simp at h

/-- C3 counterexample: on a run whose burn succeeded with id `"0xB"` and
whose mint call then threw, the returned failure carries `burnTx = ""`,
not the last known burn id. -/
theorem c3_counterexample :
    envMintFails.burn (mkBurnArgs paramsDemo) = .ok "0xB" ∧
    executeUSDCTransfer envMintFails paramsDemo =
      (some { approvalTx := none, burnTx := "", attestation := none,
              mintTx := none, success := false,
              error := some "mint reverted" },
       [.approve, .awaitApproval, .burn, .awaitBurn,
        .pollAttestation, .mint]) ∧
    "0xB" ≠ "" := by
  refine ⟨rfl, by decide, by decide⟩

/-- C3 (amended): on every failure `executeUSDCTransfer` returns
`burnTx = ""`, whether or not the burn step had produced a transaction id;
the last known burn id is not surfaced to the caller. -/
theorem c3_amended_failure_empty_burnTx (env : ChainEnv)
    (params : USDCTransferParams) (r : TransferResult) (tr : List Step)
    (h : executeUSDCTransfer env params = (some r, tr))
    (hf : r.success = false) : r.burnTx = "" := by
  unfold executeUSDCTransfer at h
  split at h
  · rename_i heq
    obtain ⟨h1, -⟩ := Prod.mk.injEq .. ▸ h
    injection h1 with h1
    subst h1
    rw [executeBody_ok_success env params _ _ heq] at hf
    exact absurd hf (by simp)
  · obtain ⟨h1, -⟩ := Prod.mk.injEq .. ▸ h
    injection h1 with h1
    subst h1
    rfl
  · simp at h

/-- C3 amended witness: the mint-failure run yields an empty `burnTx`. -/
theorem c3_amended_witness :
    ({ approvalTx := none, burnTx := "", attestation := none,
       mintTx := none, success := false,
       error := some "mint reverted" } : TransferResult).burnTx = "" :=
  c3_amended_failure_empty_burnTx envMintFails paramsDemo _
    [.approve, .awaitApproval, .burn, .awaitBurn, .pollAttestation, .mint]
    (by decide) rfl

/-- C4: whenever `executeUSDCTransfer` terminates it returns a plain
`TransferResult` — never a propagated exception — and any failure carries
`success = false` together with a populated (non-empty) error message. -/
theorem c4_no_exception_normal_result (env : ChainEnv)
    (params : USDCTransferParams) (r : TransferResult) (tr : List Step)
    (h : executeUSDCTransfer env params = (some r, tr)) :
    r.success = true ∨
    (r.success = false ∧ ∃ e, r.error = some e ∧ e ≠ "") := by
  unfold executeUSDCTransfer at h
  split at h
  · rename_i heq
    obtain ⟨h1, -⟩ := Prod.mk.injEq .. ▸ h
    injection h1 with h1
    subst h1
    exact Or.inl (executeBody_ok_success env params _ _ heq)
  · rename_i e tr' heq
    obtain ⟨h1, -⟩ := Prod.mk.injEq .. ▸ h
    injection h1 with h1
    subst h1
    refine Or.inr ⟨rfl, errMsg e, rfl, ?_⟩
    unfold errMsg
    split
    · decide
    · assumption
  · simp at h

/-- C4 witness: the approval-failure run returns a normal failure value
with a populated error. -/
theorem c4_witness :
    ({ approvalTx := none, burnTx := "", attestation := none,
       mintTx := none, success := false,
       error := some "rpc unreachable" } : TransferResult).success = true ∨
    (({ approvalTx := none, burnTx := "", attestation := none,
        mintTx := none, success := false,
        error := some "rpc unreachable" } : TransferResult).success = false ∧
     ∃ e, ({ approvalTx := none, burnTx := "", attestation := none,
             mintTx := none, success := false,
             error := some "rpc unreachable" } : TransferResult).error =
        some e ∧ e ≠ "") :=
  c4_no_exception_normal_result envApproveFails paramsDemo _
    [.approve] (by decide)

/-- C5: on a missing destination address, a non-positive amount, or a
missing private credential, the orchestrator fails with a validation error
before any chain interaction: the trace is empty and no transaction
identifier is produced. -/
theorem c5_invalid_input_no_chain_calls (env : ChainEnv)
    (params : USDCTransferParams)
    (h : params.destinationAddress = "" ∨ params.amount ≤ 0 ∨
         params.privateKey = "") :
    ∃ e, executeUSDCTransfer env params =
      (some { approvalTx := none, burnTx := "", attestation := none,
              mintTx := none, success := false, error := some e }, []) := by
  unfold executeUSDCTransfer executeBody
  by_cases h1 : params.privateKey = ""
  · exact ⟨"Private key is required", by rw [if_pos h1]; rfl⟩
  · by_cases h2 : params.destinationAddress = ""
    · exact ⟨"Destination address is required",
        by rw [if_neg h1, if_pos h2]; rfl⟩
    · have h3 : params.amount ≤ 0 := by
        rcases h with h | h | h
        · exact absurd h h2
        · exact h
        · exact absurd h h1
      exact ⟨"Amount must be greater than 0",
        by rw [if_neg h1, if_neg h2, if_pos h3]; rfl⟩

/-- C5 witness: an empty destination address fails with no chain calls. -/
theorem c5_witness :
    ∃ e, executeUSDCTransfer envAll paramsNoDest =
      (some { approvalTx := none, burnTx := "", attestation := none,
              mintTx := none, success := false, error := some e }, []) :=
  c5_invalid_input_no_chain_calls envAll paramsNoDest (Or.inl rfl)
